import Mathlib

/-!
Shallow embedding of the maveo-stick-node client core: the Cognito
credential broker (src/auth/CognitoAuth.ts), the MQTT connection manager
(src/mqtt/MqttConnection.ts), and the status-correlation layer of the
client facade (src/MaveoClient.ts).  Numbers carried by the protocol are
modelled as Int (JavaScript numerics restricted to the integral values the
device protocol uses); timer-driven code is modelled as explicit step
functions on a state record, with the events each step emits returned
alongside the new state.
-/

namespace Maveo

/-! ## Constants (src/constants.ts) -/

def AWS_REGION : String := "eu-central-1"

def IOT_HOST : String := "eu-central-1.iot-prod.marantec-cloud.de"

def DEFAULT_CONNECT_TIMEOUT : Nat := 30000

def DEFAULT_STATUS_TIMEOUT : Nat := 10000

def DEFAULT_MAX_RECONNECT_ATTEMPTS : Nat := 10

def DEFAULT_BASE_RECONNECT_DELAY : Nat := 1000

def DEFAULT_KEEPALIVE : Nat := 60

/-! ## Door states (src/types.ts, enum DoorState).
TypeScript enums are numbers at runtime, so each state is its numeric code. -/

namespace DoorState

def STOPPED : Int := 0

def OPENING : Int := 1

def CLOSING : Int := 2

def OPEN : Int := 3

def CLOSED : Int := 4

end DoorState

/-- Parsed status record (src/types.ts, interface MaveoStatus). -/
structure MaveoStatus where
  doorState : Int
  isOpening : Bool
  isClosing : Bool
  isOpen : Bool
  isClosed : Bool
  isStopped : Bool
  rawValue : Int
deriving DecidableEq, Repr

/-- The list of recognised door-state codes built by parseStatus
(src/MaveoClient.ts lines 273-279). -/
def validStates : List Int :=
  [DoorState.STOPPED, DoorState.OPENING, DoorState.CLOSING,
   DoorState.OPEN, DoorState.CLOSED]

/-- Embeds MaveoClient.parseStatus (src/MaveoClient.ts lines 272-297):
an unrecognised code falls back to STOPPED, the five booleans are derived
from the resulting doorState, and rawValue keeps the input. -/
def parseStatus (rawValue : Int) : MaveoStatus :=
  let isValidState := validStates.contains rawValue
  let doorState := if isValidState then rawValue else DoorState.STOPPED
  { doorState := doorState
    isOpening := doorState == DoorState.OPENING
    isClosing := doorState == DoorState.CLOSING
    isOpen := doorState == DoorState.OPEN
    isClosed := doorState == DoorState.CLOSED
    isStopped := doorState == DoorState.STOPPED
    rawValue := rawValue }

/-- Number of derived booleans set in a status record; the data-model
invariant asks for exactly one. -/
def flagCount (s : MaveoStatus) : Nat :=
  (if s.isStopped then 1 else 0) + (if s.isOpening then 1 else 0) +
  (if s.isClosing then 1 else 0) + (if s.isOpen then 1 else 0) +
  (if s.isClosed then 1 else 0)

/-! ## Status correlation state of MaveoClient (src/MaveoClient.ts).
Resolver closures are identified by a Nat token: the source stores the
closures themselves in an array and removes them by object identity
(indexOf), which the token models. -/

/-- Fields of MaveoClient that the status-correlation layer touches:
whether the underlying MQTT connection reports connected, the cached
currentStatus, and the statusPromiseResolvers array. -/
structure ClientState where
  connected : Bool
  currentStatus : Option MaveoStatus
  statusPromiseResolvers : List Nat
deriving DecidableEq, Repr

/-- Synchronous outcome of a getStatus call (src/MaveoClient.ts lines
221-248): rejection by ensureConnected, immediate resolution from the
cache, or registration of a fresh resolver in the pending array (the call
also publishes a status request, which has no effect on this state). -/
inductive GetStatusResult where
  | notConnectedError (msg : String)
  | cached (s : MaveoStatus)
  | pending (st : ClientState)
deriving DecidableEq, Repr

/-- Embeds the synchronous part of MaveoClient.getStatus: ensureConnected
throws when not connected; a cached status resolves at once; otherwise the
resolver token r is pushed onto statusPromiseResolvers. -/
def getStatusCall (st : ClientState) (r : Nat) : GetStatusResult :=
  if st.connected = false then
    GetStatusResult.notConnectedError "Not connected. Call connect() first."
  else
    match st.currentStatus with
    | some s => GetStatusResult.cached s
    | none =>
        GetStatusResult.pending
          { st with statusPromiseResolvers := st.statusPromiseResolvers ++ [r] }

/-- Embeds indexOf followed by splice of one element (src/MaveoClient.ts
lines 237-240): the first occurrence of r is removed; an absent r leaves
the list unchanged, exactly as the index > -1 guard does. -/
def spliceOutFirst : List Nat → Nat → List Nat
  | [], _ => []
  | x :: xs, r => if x = r then xs else x :: spliceOutFirst xs r

/-- Embeds the timeout callback of getStatus (src/MaveoClient.ts lines
236-242): remove the registered resolver by identity and reject with the
timeout error message. -/
def statusTimeoutFires (st : ClientState) (r : Nat) : ClientState × String :=
  ({ st with statusPromiseResolvers := spliceOutFirst st.statusPromiseResolvers r },
   "Status request timeout")

/-- Notifications the status layer can emit. -/
inductive ClientEvent where
  | statusEvent (s : MaveoStatus)
  | errorEvent (msg : String)
deriving DecidableEq, Repr

/-- Result of handling one inbound message: the new client state, the
resolver invocations performed (token paired with the value passed), and
the events emitted. -/
structure HandleOutcome where
  state : ClientState
  invoked : List (Nat × MaveoStatus)
  events : List ClientEvent
deriving DecidableEq, Repr

/-- Embeds MaveoClient.handleStatusMessage (src/MaveoClient.ts lines
258-270): a payload whose StoA_s field is undefined (modelled as none) is
ignored; otherwise the parsed status replaces the cache, the resolver
array is drained with splice(0) and every drained resolver is invoked with
the new status, and one status event is emitted. -/
def handleStatusMessage (st : ClientState) (payload : Option Int) : HandleOutcome :=
  match payload with
  | none => ⟨st, [], []⟩
  | some raw =>
    let status := parseStatus raw
    let resolvers := st.statusPromiseResolvers
    ⟨{ st with currentStatus := some status, statusPromiseResolvers := [] },
     resolvers.map (fun r => (r, status)),
     [ClientEvent.statusEvent status]⟩

/-! ## MqttConnection (src/mqtt/MqttConnection.ts). -/

/-- Mutable fields of MqttConnection that the lifecycle logic reads and
writes.  clientPresent models this.client being non-null and
clientConnected models this.client.connected. -/
structure MqttState where
  clientPresent : Bool
  clientConnected : Bool
  isConnecting : Bool
  shouldReconnect : Bool
  reconnectAttempts : Nat
  maxReconnectAttempts : Nat
  baseReconnectDelay : Nat
deriving DecidableEq, Repr

/-- Embeds the MqttConnection constructor (lines 47-55) applied to an
options object that may omit the two reconnect settings: absent values
fall back to the defaults, the client starts null and not connecting. -/
def mkMqttConnection (maxAttempts baseDelay : Option Nat) : MqttState :=
  { clientPresent := false
    clientConnected := false
    isConnecting := false
    shouldReconnect := true
    reconnectAttempts := 0
    maxReconnectAttempts := maxAttempts.getD DEFAULT_MAX_RECONNECT_ATTEMPTS
    baseReconnectDelay := baseDelay.getD DEFAULT_BASE_RECONNECT_DELAY }

/-- Embeds MqttConnection.isConnected (lines 307-309): client?.connected
with a null client giving false. -/
def mqttIsConnected (st : MqttState) : Bool :=
  st.clientPresent && st.clientConnected

/-- Outcome of the guarded entry of MqttConnection.connect:
alreadySatisfied models the two early returns (lines 58-64) that touch no
state; initiated models falling through to open a new transport
connection (lines 66-102), which sets isConnecting and shouldReconnect
and creates a fresh, not yet connected client. -/
inductive ConnectOutcome where
  | alreadySatisfied
  | initiated (st : MqttState)
deriving DecidableEq, Repr

/-- Embeds the synchronous prefix of MqttConnection.connect (lines
57-102): return if the client exists and is connected, return if a
connect is already in progress, otherwise mark connecting, re-enable
reconnection and open a new client. -/
def connectCall (st : MqttState) : ConnectOutcome :=
  if st.clientPresent && st.clientConnected then ConnectOutcome.alreadySatisfied
  else if st.isConnecting then ConnectOutcome.alreadySatisfied
  else
    ConnectOutcome.initiated
      { st with isConnecting := true, shouldReconnect := true, clientPresent := true }

/-- Embeds MqttConnection.disconnect (lines 266-277): clear
shouldReconnect, end the client and null it out. -/
def disconnectCall (st : MqttState) : MqttState :=
  { st with shouldReconnect := false, clientPresent := false, clientConnected := false }

/-- Embeds the close handler installed by setupEventHandlers (lines
189-197): isConnecting is cleared, a disconnected event fires, and
handleReconnect is invoked exactly when shouldReconnect holds.  The Bool
reports whether handleReconnect was invoked. -/
def closeEventFires (st : MqttState) : MqttState × Bool :=
  ({ st with isConnecting := false, clientConnected := false }, st.shouldReconnect)

/-- Outcome of the pre-delay phase of MqttConnection.handleReconnect
(lines 245-257): either the attempt ceiling was reached, a terminal error
is emitted and nothing is scheduled, or the attempt counter is bumped and
a reconnecting notification carrying (attempt, max, delay) is emitted
before waiting delay milliseconds. -/
inductive ReconnectOutcome where
  | maxedOut (st : MqttState) (errMsg : String)
  | scheduled (attempt maxAttempts delayMs : Nat) (st : MqttState)
deriving DecidableEq, Repr

/-- Embeds handleReconnect up to its await of the backoff timer (lines
245-257). -/
def handleReconnect (st : MqttState) : ReconnectOutcome :=
  if st.reconnectAttempts ≥ st.maxReconnectAttempts then
    ReconnectOutcome.maxedOut st "Max reconnection attempts reached"
  else
    let attempts := st.reconnectAttempts + 1
    let delay := st.baseReconnectDelay * 2 ^ (attempts - 1)
    ReconnectOutcome.scheduled attempts st.maxReconnectAttempts delay
      { st with reconnectAttempts := attempts }

/-- Embeds the continuation of handleReconnect after the backoff delay
elapses (lines 259-263): connect() is invoked unconditionally, with no
re-check of shouldReconnect. -/
def reconnectDelayElapsed (st : MqttState) : ConnectOutcome :=
  connectCall st

/-! ## CognitoAuth (src/auth/CognitoAuth.ts).
Credential expirations and the current clock are epoch milliseconds. -/

/-- Credential snapshot (src/types.ts, interface AWSCredentials). -/
structure AWSCredentials where
  accessKeyId : String
  secretAccessKey : String
  sessionToken : String
  expiration : Int
deriving DecidableEq, Repr

/-- Fields of CognitoAuth (lines 11-20). -/
structure CognitoAuthState where
  username : String
  password : String
  credentials : Option AWSCredentials
  identityId : Option String
deriving DecidableEq, Repr

/-- Embeds the CognitoAuth constructor (lines 17-20): credentials and
identityId start null. -/
def mkCognitoAuth (username password : String) : CognitoAuthState :=
  { username := username, password := password, credentials := none, identityId := none }

/-- Embeds CognitoAuth.isCredentialsExpired (lines 148-151): true when no
credentials are held or when now is at or past the stored expiration. -/
def isCredentialsExpired (st : CognitoAuthState) (now : Int) : Bool :=
  match st.credentials with
  | none => true
  | some c => decide (c.expiration ≤ now)

/-! ## Signed-header generation (MqttConnection.generateAuthHeaders,
src/mqtt/MqttConnection.ts lines 110-161).  The cryptographic primitives
from node crypto are abstracted as a record of functions; digests are
modelled as strings.  The timestamp the source draws from new Date() is
an explicit ISO-string input, so the dependence of the output on
(credentials, timestamp) is exact. -/

/-- Abstract hash primitives: a hex sha256 of a string, a raw keyed hash,
and a hex keyed hash. -/
structure HashPrims where
  sha256Hex : String → String
  hmacRaw : String → String → String
  hmacHex : String → String → String

/-- Embeds the regex replace of [:-] and a dot followed by three digits
applied to the ISO timestamp string (line 116). -/
def stripAmzChars : List Char → List Char
  | [] => []
  | c :: d1 :: d2 :: d3 :: rest =>
    if c = ':' ∨ c = '-' then stripAmzChars (d1 :: d2 :: d3 :: rest)
    else if c = '.' ∧ d1.isDigit ∧ d2.isDigit ∧ d3.isDigit then stripAmzChars rest
    else c :: stripAmzChars (d1 :: d2 :: d3 :: rest)
  | c :: cs =>
    if c = ':' ∨ c = '-' then stripAmzChars cs
    else c :: stripAmzChars cs

/-- The amz-date string derived from the ISO timestamp. -/
def amzDateOf (nowIso : String) : String :=
  String.mk (stripAmzChars nowIso.toList)

/-- Embeds generateAuthHeaders (lines 110-161) as a function of the hash
primitives, the credential snapshot and the ISO timestamp; the returned
association list is the headers object in insertion order, with the
security-token header present exactly when the session token is truthy
(non-empty). -/
def generateAuthHeaders (p : HashPrims) (credentials : AWSCredentials)
    (nowIso : String) : List (String × String) :=
  let amzDate := amzDateOf nowIso
  let datestamp := amzDate.take 8
  let service := "iotdata"
  let algorithm := "AWS4-HMAC-SHA256"
  let credentialScope := datestamp ++ "/" ++ AWS_REGION ++ "/" ++ service ++ "/aws4_request"
  let canonicalHeaders := "host:" ++ IOT_HOST ++ "\n" ++ "x-amz-date:" ++ amzDate ++ "\n"
  let signedHeaders := "host;x-amz-date"
  let payloadHash := p.sha256Hex ""
  let canonicalRequest :=
    "GET\n/mqtt\n\n" ++ canonicalHeaders ++ "\n" ++ signedHeaders ++ "\n" ++ payloadHash
  let stringToSign :=
    algorithm ++ "\n" ++ amzDate ++ "\n" ++ credentialScope ++ "\n" ++
      p.sha256Hex canonicalRequest
  let kDate := p.hmacRaw ("AWS4" ++ credentials.secretAccessKey) datestamp
  let kRegion := p.hmacRaw kDate AWS_REGION
  let kService := p.hmacRaw kRegion service
  let kSigning := p.hmacRaw kService "aws4_request"
  let signature := p.hmacHex kSigning stringToSign
  let authHeader :=
    algorithm ++ " Credential=" ++ credentials.accessKeyId ++ "/" ++ credentialScope ++
      ", SignedHeaders=" ++ signedHeaders ++ ", Signature=" ++ signature
  let base := [("Host", IOT_HOST), ("X-Amz-Date", amzDate), ("Authorization", authHeader)]
  if credentials.sessionToken = "" then base
  else base ++ [("X-Amz-Security-Token", credentials.sessionToken)]

/-! ## Constructor validation of MaveoClient (src/MaveoClient.ts lines
48-64).  Config fields arrive as optional strings: none models an absent
field, mirroring the optional chaining on config.username?.trim(). -/

/-- The three mandatory fields of MaveoConfig as they reach the
constructor checks. -/
structure MaveoConfigInput where
  username : Option String
  password : Option String
  deviceId : Option String
deriving DecidableEq, Repr

/-- Truthiness test applied by the constructor to a possibly absent
field: an absent field and a field whose trim is empty are both falsy. -/
def isBlankField : Option String → Bool
  | none => true
  | some s => decide (s.trim = "")

/-- Embeds the validation prefix of the MaveoClient constructor (lines
51-59): the first blank field among username, password, deviceId throws
its field-specific message; otherwise construction proceeds. -/
def validateMaveoConfig (config : MaveoConfigInput) : Except String Unit :=
  if isBlankField config.username then
    Except.error "MaveoConfig: username is required"
  else if isBlankField config.password then
    Except.error "MaveoConfig: password is required"
  else if isBlankField config.deviceId then
    Except.error "MaveoConfig: deviceId is required"
  else Except.ok ()

/-! ## Theorems -/

/-- C4: for every numeric input, parseStatus preserves the input in
rawValue, sets exactly one of the five derived booleans, each boolean
agrees with doorState; every recognised code in the valid-state list keeps
its own code as doorState, and every unrecognised code falls back to
doorState STOPPED with isStopped set while rawValue keeps the original
code. -/
theorem parseStatus_correct (raw : Int) :
    (parseStatus raw).rawValue = raw
    ∧ flagCount (parseStatus raw) = 1
    ∧ (parseStatus raw).isStopped = ((parseStatus raw).doorState == DoorState.STOPPED)
    ∧ (parseStatus raw).isOpening = ((parseStatus raw).doorState == DoorState.OPENING)
    ∧ (parseStatus raw).isClosing = ((parseStatus raw).doorState == DoorState.CLOSING)
    ∧ (parseStatus raw).isOpen = ((parseStatus raw).doorState == DoorState.OPEN)
    ∧ (parseStatus raw).isClosed = ((parseStatus raw).doorState == DoorState.CLOSED)
    ∧ (raw ∈ validStates → (parseStatus raw).doorState = raw)
    ∧ (raw ∉ validStates →
        (parseStatus raw).doorState = DoorState.STOPPED
        ∧ (parseStatus raw).isStopped = true) := by
  by_cases hmem : raw ∈ validStates
  · have h5 : raw = 0 ∨ raw = 1 ∨ raw = 2 ∨ raw = 3 ∨ raw = 4 := by
      simpa [validStates, DoorState.STOPPED, DoorState.OPENING, DoorState.CLOSING,
        DoorState.OPEN, DoorState.CLOSED] using hmem
    rcases h5 with h | h | h | h | h <;> subst h <;> decide
  · have hc : validStates.contains raw = false := by
      simpa using hmem
    refine ⟨rfl, ?_, ?_, ?_, ?_, ?_, ?_, ?_, ?_⟩
    · simp [flagCount, parseStatus, hc, hmem, DoorState.STOPPED, DoorState.OPENING,
        DoorState.CLOSING, DoorState.OPEN, DoorState.CLOSED]
    · simp [parseStatus, hc, hmem]
    · simp [parseStatus, hc, hmem]
    · simp [parseStatus, hc, hmem]
    · simp [parseStatus, hc, hmem]
    · simp [parseStatus, hc, hmem]
    · exact fun h => absurd h hmem
    · exact fun _ =>
        ⟨by simp [parseStatus, hc, hmem, DoorState.STOPPED],
         by simp [parseStatus, hc, hmem, DoorState.STOPPED]⟩

/-- C10: an inbound payload whose status field is undefined is silently
ignored by handleStatusMessage: the client state (cache and pending
resolvers included) is unchanged, no resolver is invoked, and no event of
any kind is emitted. -/
theorem handleStatusMessage_undefined_noop (st : ClientState) :
    handleStatusMessage st none = ⟨st, [], []⟩ := rfl

/-- C3: handling an inbound message with a defined status field replaces
the cached status with the newly parsed value, invokes each pending
resolver exactly once with that same value (the invocation list pairs the
pending tokens, in order and in full, with the parsed status), empties
the pending collection, and emits exactly one status-changed event. -/
theorem handleStatusMessage_fanout (st : ClientState) (raw : Int) :
    (handleStatusMessage st (some raw)).state.currentStatus = some (parseStatus raw)
    ∧ (handleStatusMessage st (some raw)).state.statusPromiseResolvers = []
    ∧ (handleStatusMessage st (some raw)).invoked
        = st.statusPromiseResolvers.map (fun r => (r, parseStatus raw))
    ∧ (handleStatusMessage st (some raw)).invoked.map Prod.fst
        = st.statusPromiseResolvers
    ∧ (∀ p ∈ (handleStatusMessage st (some raw)).invoked, p.2 = parseStatus raw)
    ∧ (handleStatusMessage st (some raw)).events
        = [ClientEvent.statusEvent (parseStatus raw)]
    ∧ (handleStatusMessage st (some raw)).state.connected = st.connected := by
  refine ⟨rfl, rfl, rfl, ?_, ?_, rfl, rfl⟩
  · simp only [handleStatusMessage, List.map_map]
    simp [Function.comp_def]
  · intro p hp
    simp [handleStatusMessage] at hp
    rcases hp with ⟨r, _, h⟩
    simp [← h]

/-- Removing the first occurrence of an element that was just appended to
a list not containing it restores the original list. -/
theorem spliceOutFirst_append_fresh (l : List Nat) (r : Nat) (h : r ∉ l) :
    spliceOutFirst (l ++ [r]) r = l := by
  induction l with
  | nil => simp [spliceOutFirst]
  | cons x xs ih =>
    have hx : ¬ x = r := fun hxr => h (hxr ▸ List.mem_cons_self x xs)
    have hxs : r ∉ xs := fun hm => h (List.mem_cons_of_mem x hm)
    simp [spliceOutFirst, hx, ih hxs]

/-- C1: a getStatus call made while connected and with no cached status
registers a fresh resolver; when the status timeout then fires, the call
rejects with the timeout-specific error and the resolver is removed by
identity, so the pending collection returns exactly to its previous
contents and size. -/
theorem getStatus_timeout_no_leak (st : ClientState) (r : Nat)
    (hconn : st.connected = true) (hcache : st.currentStatus = none)
    (hfresh : r ∉ st.statusPromiseResolvers) :
    ∃ st1, getStatusCall st r = GetStatusResult.pending st1
      ∧ st1.statusPromiseResolvers = st.statusPromiseResolvers ++ [r]
      ∧ (statusTimeoutFires st1 r).2 = "Status request timeout"
      ∧ (statusTimeoutFires st1 r).1 = st
      ∧ (statusTimeoutFires st1 r).1.statusPromiseResolvers.length
          = st.statusPromiseResolvers.length := by
  refine ⟨{ st with statusPromiseResolvers := st.statusPromiseResolvers ++ [r] },
    ?_, rfl, rfl, ?_, ?_⟩
  · simp [getStatusCall, hconn, hcache]
  · simp [statusTimeoutFires, spliceOutFirst_append_fresh _ _ hfresh]
  · simp [statusTimeoutFires, spliceOutFirst_append_fresh _ _ hfresh]

/-- Witness for C1 at a concrete state holding one unrelated pending
resolver. -/
theorem getStatus_timeout_no_leak_witness :
    ∃ st1, getStatusCall ⟨true, none, [7]⟩ 3 = GetStatusResult.pending st1
      ∧ st1.statusPromiseResolvers = [7] ++ [3]
      ∧ (statusTimeoutFires st1 3).2 = "Status request timeout"
      ∧ (statusTimeoutFires st1 3).1 = (⟨true, none, [7]⟩ : ClientState)
      ∧ (statusTimeoutFires st1 3).1.statusPromiseResolvers.length
          = ([7] : List Nat).length :=
  getStatus_timeout_no_leak ⟨true, none, [7]⟩ 3 rfl rfl (by decide)

/-- C6: a reentrant connect call made while the client is live, or while
a connect attempt is already in progress, returns at once through one of
the two early-return guards, reaching none of the state-mutating code. -/
theorem connect_idempotent (st : MqttState)
    (h : (st.clientPresent = true ∧ st.clientConnected = true) ∨ st.isConnecting = true) :
    connectCall st = ConnectOutcome.alreadySatisfied := by
  rcases h with ⟨h1, h2⟩ | h1
  · simp [connectCall, h1, h2]
  · simp [connectCall, h1]

/-- Witness for C6: a state that is mid-handshake but has no live
client. -/
theorem connect_idempotent_witness :
    connectCall ⟨true, false, true, true, 0, 10, 1000⟩
      = ConnectOutcome.alreadySatisfied :=
  connect_idempotent ⟨true, false, true, true, 0, 10, 1000⟩ (Or.inr rfl)

/-- C5: a reconnect attempt N with N at most the configured maximum bumps
the counter to N and emits one reconnecting notification carrying
(N, maximum, baseDelay times 2 to the power N minus 1) before waiting
that delay; once the counter has reached the maximum, handleReconnect
emits the terminal error, leaves the state unchanged and schedules
nothing. -/
theorem handleReconnect_backoff (st : MqttState) (N : Nat)
    (hN : st.reconnectAttempts + 1 = N) (hle : N ≤ st.maxReconnectAttempts) :
    handleReconnect st
      = ReconnectOutcome.scheduled N st.maxReconnectAttempts
          (st.baseReconnectDelay * 2 ^ (N - 1))
          { st with reconnectAttempts := N }
    ∧ (∀ s : MqttState, s.maxReconnectAttempts ≤ s.reconnectAttempts →
        handleReconnect s = ReconnectOutcome.maxedOut s "Max reconnection attempts reached") := by
  constructor
  · have hlt : ¬ st.reconnectAttempts ≥ st.maxReconnectAttempts := by omega
    simp [handleReconnect, hlt, hN]
  · intro s hs
    simp [handleReconnect, hs, ge_iff_le]

/-- Witness for C5 at attempt 3 of 10 with the default base delay: the
scheduled backoff is 4000 milliseconds. -/
theorem handleReconnect_backoff_witness :
    handleReconnect ⟨true, false, false, true, 2, 10, 1000⟩
      = ReconnectOutcome.scheduled 3 10 (1000 * 2 ^ (3 - 1))
          ⟨true, false, false, true, 3, 10, 1000⟩
    ∧ (∀ s : MqttState, s.maxReconnectAttempts ≤ s.reconnectAttempts →
        handleReconnect s = ReconnectOutcome.maxedOut s "Max reconnection attempts reached") :=
  handleReconnect_backoff ⟨true, false, false, true, 2, 10, 1000⟩ 3 rfl (by decide)

/-- C7: isCredentialsExpired is true exactly when no credentials are held
or the clock is at or past the stored expiration; a freshly constructed
CognitoAuth reports expired credentials at any clock value, and a freshly
constructed MqttConnection reports isConnected false for any options. -/
theorem credentials_expired_iff (st : CognitoAuthState) (now : Int)
    (u p : String) (maxAttempts baseDelay : Option Nat) :
    (isCredentialsExpired st now = true
      ↔ st.credentials = none
        ∨ ∃ c, st.credentials = some c ∧ c.expiration ≤ now)
    ∧ isCredentialsExpired (mkCognitoAuth u p) now = true
    ∧ mqttIsConnected (mkMqttConnection maxAttempts baseDelay) = false := by
  refine ⟨?_, rfl, rfl⟩
  cases hc : st.credentials with
  | none => simp [isCredentialsExpired, hc]
  | some c => simp [isCredentialsExpired, hc]

/-- C8: signed-header generation is deterministic in the credential
snapshot and the timestamp: with the hash primitives fixed, equal
credentials and equal timestamps give identical headers, signature
included (the host is the fixed IOT_HOST constant). -/
theorem generateAuthHeaders_deterministic (p : HashPrims)
    (c1 c2 : AWSCredentials) (t1 t2 : String)
    (hc : c1 = c2) (ht : t1 = t2) :
    generateAuthHeaders p c1 t1 = generateAuthHeaders p c2 t2 := by
  subst hc
  subst ht
  rfl

/-- Concrete hash primitives for the C8 witness. -/
def concatPrims : HashPrims :=
  { sha256Hex := fun s => s
    hmacRaw := fun k d => k ++ d
    hmacHex := fun k d => k ++ d }

/-- Concrete credential snapshot for the C8 witness. -/
def sampleCredentials : AWSCredentials :=
  { accessKeyId := "AKIDEXAMPLE"
    secretAccessKey := "secret"
    sessionToken := "token"
    expiration := 1760000000000 }

/-- Witness for C8 at a concrete snapshot and timestamp. -/
theorem generateAuthHeaders_deterministic_witness :
    generateAuthHeaders concatPrims sampleCredentials "2026-10-11T00:00:00.000Z"
      = generateAuthHeaders concatPrims sampleCredentials "2026-10-11T00:00:00.000Z" :=
  generateAuthHeaders_deterministic concatPrims sampleCredentials sampleCredentials
    "2026-10-11T00:00:00.000Z" "2026-10-11T00:00:00.000Z" rfl rfl

/-- C9: the constructor rejects a missing, empty or whitespace-only
username, password or deviceId with the message naming the first such
field, and accepts a config in which all three fields are non-blank. -/
theorem validateMaveoConfig_spec (config : MaveoConfigInput) :
    (isBlankField config.username = true →
      validateMaveoConfig config = Except.error "MaveoConfig: username is required")
    ∧ (isBlankField config.username = false → isBlankField config.password = true →
      validateMaveoConfig config = Except.error "MaveoConfig: password is required")
    ∧ (isBlankField config.username = false → isBlankField config.password = false →
      isBlankField config.deviceId = true →
      validateMaveoConfig config = Except.error "MaveoConfig: deviceId is required")
    ∧ (isBlankField config.username = false → isBlankField config.password = false →
      isBlankField config.deviceId = false →
      validateMaveoConfig config = Except.ok ())
    ∧ isBlankField none = true
    ∧ (∀ s : String, s.trim = "" → isBlankField (some s) = true)
    ∧ (∀ s : String, s.trim ≠ "" → isBlankField (some s) = false) := by
  refine ⟨?_, ?_, ?_, ?_, rfl, ?_, ?_⟩
  · intro h1
    simp [validateMaveoConfig, h1]
  · intro h1 h2
    simp [validateMaveoConfig, h1, h2]
  · intro h1 h2 h3
    simp [validateMaveoConfig, h1, h2, h3]
  · intro h1 h2 h3
    simp [validateMaveoConfig, h1, h2, h3]
  · intro s hs
    simp [isBlankField, hs]
  · intro s hs
    simp [isBlankField, hs]

/-- The manager state while one reconnect backoff delay is pending: an
established connection dropped unexpectedly (close handler ran) and
handleReconnect has made attempt 1 and is awaiting its timer. -/
def pendingBackoffState : MqttState :=
  { clientPresent := true
    clientConnected := false
    isConnecting := false
    shouldReconnect := true
    reconnectAttempts := 1
    maxReconnectAttempts := 10
    baseReconnectDelay := 1000 }

/-- C2: evaluation of the code at the failing input.  Calling disconnect
while a reconnect backoff delay is in flight clears shouldReconnect and
nulls the client, yet when the delay elapses the pending handleReconnect
continuation invokes connect unconditionally, and connect, seeing no live
client and no attempt in progress, initiates a brand-new connection and
even sets shouldReconnect back to true: the disconnected instance
silently reconnects, contrary to the claim. -/
theorem disconnect_during_backoff_still_reconnects :
    disconnectCall pendingBackoffState
      = { clientPresent := false, clientConnected := false, isConnecting := false,
          shouldReconnect := false, reconnectAttempts := 1,
          maxReconnectAttempts := 10, baseReconnectDelay := 1000 }
    ∧ reconnectDelayElapsed (disconnectCall pendingBackoffState)
      = ConnectOutcome.initiated
          { clientPresent := true, clientConnected := false, isConnecting := true,
            shouldReconnect := true, reconnectAttempts := 1,
            maxReconnectAttempts := 10, baseReconnectDelay := 1000 } := by
  constructor
  · rfl
  · rfl

end Maveo
